import Mathlib

/-
Shallow embedding of the rental-inventory backend (Express + Prisma routes).
Money fields (DOUBLE PRECISION in the schema) are modelled as exact rationals;
timestamps are modelled as integer milliseconds since the epoch, matching the
JavaScript Date arithmetic in the handlers.
-/

namespace RentalSystem

/-- UserRole enum from the Prisma schema. -/
inductive Role
  | ADMIN
  | STAFF
deriving DecidableEq, Repr

/-- ItemStatus enum from the Prisma schema. -/
inductive ItemStatus
  | AVAILABLE
  | RENTED
  | MAINTENANCE
  | RETIRED
deriving DecidableEq, Repr

/-- RentalStatus enum from the Prisma schema. -/
inductive RentalStatus
  | PENDING
  | ACTIVE
  | COMPLETED
  | CANCELLED
  | OVERDUE
deriving DecidableEq, Repr

/-- PaymentStatus enum from the Prisma schema. -/
inductive PaymentStatus
  | UNPAID
  | PARTIAL
  | PAID
  | REFUNDED
deriving DecidableEq, Repr

/-- Error taxonomy of the route handlers: 400 invalid input, 404 not found,
400/409 business-rule conflict. -/
inductive ApiError
  | InvalidInput
  | NotFound
  | Conflict
deriving DecidableEq, Repr

/-- Item row: the fields read or written by the rental and maintenance routes. -/
structure Item where
  id : Nat
  status : ItemStatus
  dailyRate : ℚ
  quantity : Int
deriving DecidableEq, Repr

/-- Rental row: identity, dates, status, and the financial snapshot fields. -/
structure Rental where
  id : Nat
  customerId : Nat
  itemId : Nat
  userId : Nat
  startDate : Int
  endDate : Int
  returnDate : Option Int
  status : RentalStatus
  dailyRate : ℚ
  numberOfDays : Int
  subtotal : ℚ
  deposit : ℚ
  discount : ℚ
  totalAmount : ℚ
  amountPaid : ℚ
  amountDue : ℚ
  paymentStatus : PaymentStatus
deriving DecidableEq, Repr

/-- Payment row: the fields used by the payment and summary routes. -/
structure Payment where
  id : Nat
  rentalId : Nat
  amount : ℚ
  paymentDate : Int
deriving DecidableEq, Repr

/-- Expense row: the fields used by the summary route. -/
structure Expense where
  id : Nat
  amount : ℚ
  expenseDate : Int
deriving DecidableEq, Repr

/-- Milliseconds in a day, the divisor 1000*60*60*24 used by the handlers. -/
def msPerDay : Int := 86400000

/-- numberOfDays = Math.ceil((end - start) / (1000*60*60*24)), from the
createRental and updateRental handlers. -/
def computeNumberOfDays (startDate endDate : Int) : Int :=
  Int.ceil (((endDate - startDate : Int) : ℚ) / (msPerDay : ℚ))

/-- The three-way paymentStatus classification used by both the recordPayment
and deletePayment transactions: PAID if newAmountPaid >= totalAmount, else
PARTIAL if newAmountPaid > 0, else UNPAID. -/
def derivePaymentStatus (newAmountPaid totalAmount : ℚ) : PaymentStatus :=
  if newAmountPaid >= totalAmount then PaymentStatus.PAID
  else if newAmountPaid > 0 then PaymentStatus.PARTIAL
  else PaymentStatus.UNPAID

/-- POST /finances/payments: validates amount > 0, then amount <= amountDue,
then inserts the payment and rewrites amountPaid, amountDue, paymentStatus on
the rental in one transaction. Only the rental mutation is modelled; the
inserted Payment row does not affect the rental fields. -/
def recordPayment (rental : Rental) (paymentAmount : ℚ) : Except ApiError Rental :=
  if paymentAmount <= 0 then Except.error ApiError.InvalidInput
  else if paymentAmount > rental.amountDue then Except.error ApiError.Conflict
  else
    let newAmountPaid := rental.amountPaid + paymentAmount
    let newAmountDue := rental.totalAmount - newAmountPaid
    Except.ok { rental with
      amountPaid := newAmountPaid
      amountDue := newAmountDue
      paymentStatus := derivePaymentStatus newAmountPaid rental.totalAmount }

/-- DELETE /finances/payments/:id: removes the payment of the given amount and
recomputes amountPaid, amountDue, paymentStatus on the parent rental in the
same transaction (the NotFound guard lives outside this rental-level core). -/
def deletePayment (rental : Rental) (paymentAmount : ℚ) : Rental :=
  let newAmountPaid := rental.amountPaid - paymentAmount
  let newAmountDue := rental.totalAmount - newAmountPaid
  { rental with
    amountPaid := newAmountPaid
    amountDue := newAmountDue
    paymentStatus := derivePaymentStatus newAmountPaid rental.totalAmount }

/-- POST /rentals: date guard (end <= start is rejected), availability guard
(status must be AVAILABLE and quantity >= 1), financial snapshot computation,
then in one transaction the rental row is created (status PENDING, UNPAID) and
the item is set to RENTED with quantity decremented by 1. -/
def createRental (rentalId customerId userId : Nat) (item : Item)
    (startDate endDate : Int) (deposit discount : ℚ) :
    Except ApiError (Rental × Item) :=
  if endDate <= startDate then Except.error ApiError.InvalidInput
  else if item.status ≠ ItemStatus.AVAILABLE ∨ item.quantity < 1 then
    Except.error ApiError.Conflict
  else
    let numberOfDays := computeNumberOfDays startDate endDate
    let subtotal := item.dailyRate * (numberOfDays : ℚ)
    let totalAmount := subtotal + deposit - discount
    let amountDue := totalAmount
    Except.ok
      ({ id := rentalId
         customerId := customerId
         itemId := item.id
         userId := userId
         startDate := startDate
         endDate := endDate
         returnDate := none
         status := RentalStatus.PENDING
         dailyRate := item.dailyRate
         numberOfDays := numberOfDays
         subtotal := subtotal
         deposit := deposit
         discount := discount
         totalAmount := totalAmount
         amountPaid := 0
         amountDue := amountDue
         paymentStatus := PaymentStatus.UNPAID },
       { item with status := ItemStatus.RENTED, quantity := item.quantity - 1 })

/-- PUT /rentals/:id (rental-level core): if either date is supplied the dates
are re-validated and numberOfDays, subtotal, totalAmount, amountDue are
recomputed from the existing dailyRate, deposit, discount and amountPaid; a
supplied status is written unconditionally. -/
def updateRental (rental : Rental) (newStartDate newEndDate : Option Int)
    (newStatus : Option RentalStatus) : Except ApiError Rental :=
  if newStartDate.isSome ∨ newEndDate.isSome then
    let start := newStartDate.getD rental.startDate
    let stop := newEndDate.getD rental.endDate
    if stop <= start then Except.error ApiError.InvalidInput
    else
      let numberOfDays := computeNumberOfDays start stop
      let subtotal := rental.dailyRate * (numberOfDays : ℚ)
      let totalAmount := subtotal + rental.deposit - rental.discount
      let amountDue := totalAmount - rental.amountPaid
      Except.ok { rental with
        startDate := start
        endDate := stop
        numberOfDays := numberOfDays
        subtotal := subtotal
        totalAmount := totalAmount
        amountDue := amountDue
        status := newStatus.getD rental.status }
  else
    Except.ok { rental with status := newStatus.getD rental.status }

/-- PUT /rentals/:id/return: rejects a rental that is already COMPLETED, then
in one transaction sets returnDate and status COMPLETED on the rental and sets
the item to AVAILABLE with quantity incremented by 1. -/
def returnItem (rental : Rental) (item : Item) (now : Int) :
    Except ApiError (Rental × Item) :=
  if rental.status = RentalStatus.COMPLETED then Except.error ApiError.Conflict
  else
    Except.ok
      ({ rental with returnDate := some now, status := RentalStatus.COMPLETED },
       { item with status := ItemStatus.AVAILABLE, quantity := item.quantity + 1 })

/-- The updateMany step of GET /rentals/status/overdue applied to one row:
rentals with status ACTIVE and endDate < today are set to OVERDUE, all others
are untouched. -/
def sweepOne (today : Int) (rental : Rental) : Rental :=
  if rental.status = RentalStatus.ACTIVE ∧ rental.endDate < today then
    { rental with status := RentalStatus.OVERDUE }
  else rental

/-- The updateMany step of GET /rentals/status/overdue over the rental table. -/
def sweepOverdue (today : Int) (rentals : List Rental) : List Rental :=
  rentals.map (sweepOne today)

/-- The findMany step of GET /rentals/status/overdue: all rentals whose status
is OVERDUE. -/
def listOverdueRentals (rentals : List Rental) : List Rental :=
  rentals.filter (fun r => decide (r.status = RentalStatus.OVERDUE))

/-- GET /rentals/status/overdue: first the sweep mutation, then the listing;
returns the updated table together with the response list. -/
def getOverdueRentals (today : Int) (rentals : List Rental) :
    List Rental × List Rental :=
  let swept := sweepOverdue today rentals
  (swept, listOverdueRentals swept)

/-- Date-range predicate built by the summary handler: gte startDate when
supplied, lte endDate when supplied. -/
def inDateRange (d : Int) (startDate endDate : Option Int) : Bool :=
  (match startDate with
   | some s => decide (s <= d)
   | none => true) &&
  (match endDate with
   | some e => decide (d <= e)
   | none => true)

/-- Response body of GET /finances/summary. -/
structure FinancialSummary where
  totalRevenue : ℚ
  totalExpenses : ℚ
  netProfit : ℚ
  outstandingPayments : ℚ
  profitMargin : ℚ
deriving DecidableEq, Repr

/-- Number.prototype.toFixed(2): round to the nearest multiple of 1/100,
ties toward the larger candidate. -/
def toFixed2 (x : ℚ) : ℚ := ((Int.floor (x * 100 + 1 / 2) : ℤ) : ℚ) / 100

/-- GET /finances/summary: revenue is the sum of payment amounts with
paymentDate in range, expenses likewise over expenseDate, netProfit is their
difference, outstandingPayments sums amountDue over rentals with paymentStatus
UNPAID or PARTIAL with no date condition, and profitMargin is
(netProfit/totalRevenue*100).toFixed(2) when totalRevenue > 0, else 0. -/
def getSummary (payments : List Payment) (expenses : List Expense)
    (rentals : List Rental) (startDate endDate : Option Int) : FinancialSummary :=
  let totalRevenue :=
    ((payments.filter (fun p => inDateRange p.paymentDate startDate endDate)).map
      Payment.amount).sum
  let totalExpenses :=
    ((expenses.filter (fun e => inDateRange e.expenseDate startDate endDate)).map
      Expense.amount).sum
  let outstandingPayments :=
    ((rentals.filter (fun r =>
        decide (r.paymentStatus = PaymentStatus.UNPAID ∨
                r.paymentStatus = PaymentStatus.PARTIAL))).map
      Rental.amountDue).sum
  let netProfit := totalRevenue - totalExpenses
  { totalRevenue := totalRevenue
    totalExpenses := totalExpenses
    netProfit := netProfit
    outstandingPayments := outstandingPayments
    profitMargin :=
      if totalRevenue > 0 then toFixed2 (netProfit / totalRevenue * 100) else 0 }

/-- The rental table together with the item table, for the handlers whose
frame effects matter. -/
structure Db where
  rentals : List Rental
  items : List Item
deriving DecidableEq, Repr

/-- prisma.rental.findUnique by id. -/
def findRental (rentals : List Rental) (rentalId : Nat) : Option Rental :=
  rentals.find? (fun r => r.id == rentalId)

/-- PUT /rentals/:id at table level: looks up the rental (404 when absent),
runs the rental-level update, and writes back only the rental row; the handler
contains no item write. -/
def updateRentalDb (db : Db) (rentalId : Nat) (newStartDate newEndDate : Option Int)
    (newStatus : Option RentalStatus) : Except ApiError Db :=
  match findRental db.rentals rentalId with
  | none => Except.error ApiError.NotFound
  | some rental =>
    match updateRental rental newStartDate newEndDate newStatus with
    | Except.error e => Except.error e
    | Except.ok updated =>
      Except.ok { db with
        rentals := db.rentals.map (fun r => if r.id == rentalId then updated else r) }

/-
Role-based redaction layer, modelled at the level of field presence: a
serialized record is the list of its JSON keys.  Field lists follow the
Prisma schema; "payments" appears only where the route includes the relation.
-/

/-- JSON keys of a serialized Rental row. -/
def rentalRecordFields : List String :=
  ["id", "customerId", "itemId", "userId", "startDate", "endDate", "returnDate",
   "status", "notes", "createdAt", "updatedAt", "dailyRate", "numberOfDays",
   "subtotal", "deposit", "discount", "totalAmount", "amountPaid", "amountDue",
   "paymentStatus"]

/-- JSON keys of a serialized Maintenance row. -/
def maintenanceRecordFields : List String :=
  ["id", "itemId", "description", "status", "startDate", "endDate", "cost",
   "createdAt", "updatedAt"]

/-- The nine Rental financial fields named by the redaction contract. -/
def rentalFinancialFields : List String :=
  ["dailyRate", "numberOfDays", "subtotal", "deposit", "discount",
   "totalAmount", "amountPaid", "amountDue", "paymentStatus"]

/-- filterFinancialData from the rentals router: destructures away the nine
financial fields plus the payments relation and keeps the rest. -/
def filterFinancialData (fields : List String) : List String :=
  fields.filter (fun f => !((rentalFinancialFields ++ ["payments"]).contains f))

/-- The inline destructuring used by the customers router and the dashboard
activity route: removes the nine financial fields (payments is never
included there). -/
def filterFinancialInline (fields : List String) : List String :=
  fields.filter (fun f => !(rentalFinancialFields.contains f))

/-- filterCost from the maintenance router: destructures away cost. -/
def filterCost (fields : List String) : List String :=
  fields.filter (fun f => !(f == "cost"))

/-- Keys of each rental record in GET /rentals (and POST /rentals,
PUT /rentals/:id, PUT /rentals/:id/return, GET /rentals/status/active,
GET /rentals/status/overdue, which apply the same filter): staff responses go
through filterFinancialData, admin responses do not. -/
def rentalsRouteRentalKeys (role : Role) : List String :=
  if role = Role.STAFF then filterFinancialData rentalRecordFields
  else rentalRecordFields

/-- Keys of the rental record in GET /rentals/:id: payments is included only
for admins, then staff responses go through filterFinancialData. -/
def rentalByIdKeys (role : Role) : List String :=
  let included :=
    if role = Role.ADMIN then rentalRecordFields ++ ["payments"]
    else rentalRecordFields
  if role = Role.STAFF then filterFinancialData included else included

/-- Keys of each rental nested in GET /customers/:id and listed by
GET /customers/:id/rentals and GET /dashboard/activity: staff responses go
through the inline nine-field destructuring. -/
def customerRentalKeys (role : Role) : List String :=
  if role = Role.STAFF then filterFinancialInline rentalRecordFields
  else rentalRecordFields

/-- Keys of each maintenance record in the maintenance router responses
(list, single, create, update, complete): staff responses go through
filterCost. -/
def maintenanceRouteKeys (role : Role) : List String :=
  if role = Role.STAFF then filterCost maintenanceRecordFields
  else maintenanceRecordFields

/-- Keys of each rental nested under GET /items/:id: the handler serializes
the item with its included rentals directly, with no role check. -/
def itemByIdNestedRentalKeys (_role : Role) : List String :=
  rentalRecordFields

/-- Keys of each maintenance record nested under GET /items/:id: likewise
serialized with no role check. -/
def itemByIdNestedMaintenanceKeys (_role : Role) : List String :=
  maintenanceRecordFields


/-
Concrete fixtures used by the witnesses and counterexamples.
-/

/-- Balance invariant: amountDue + amountPaid = totalAmount. -/
def balanced (r : Rental) : Prop :=
  r.amountDue + r.amountPaid = r.totalAmount

/-- Concrete item fixture with five units available. -/
def item5 : Item :=
  { id := 1, status := ItemStatus.AVAILABLE, dailyRate := 15, quantity := 5 }

/-- Concrete rental fixture: ACTIVE, totalAmount 130, amountPaid 30,
amountDue 100, PARTIAL. -/
def r0 : Rental :=
  { id := 1, customerId := 1, itemId := 1, userId := 1
    startDate := 0, endDate := 518400000, returnDate := none
    status := RentalStatus.ACTIVE, dailyRate := 15, numberOfDays := 6
    subtotal := 90, deposit := 50, discount := 10, totalAmount := 130
    amountPaid := 30, amountDue := 100, paymentStatus := PaymentStatus.PARTIAL }

/-- r0 after a successful payment of 100. -/
def rp0 : Rental :=
  { r0 with amountPaid := 130, amountDue := 0, paymentStatus := PaymentStatus.PAID }

/-- rp0 (fully paid) after a date edit extends endDate to day 7: updateRental
recomputes totalAmount 145 and amountDue 15 but leaves paymentStatus PAID, a
reachable state whose stored status disagrees with the classification. -/
def rStale : Rental :=
  { rp0 with endDate := 604800000, numberOfDays := 7, subtotal := 105,
             totalAmount := 145, amountDue := 15 }

/-- rStale after paying the reopened balance of 15. -/
def rRepaid : Rental :=
  { rStale with amountPaid := 145, amountDue := 0 }

/-- r0 after extending endDate to day 7. -/
def r0Extended : Rental :=
  { r0 with endDate := 604800000, numberOfDays := 7, subtotal := 105,
            totalAmount := 145, amountDue := 115 }

/-- item5 after createRental reserves a unit. -/
def item4 : Item := { item5 with status := ItemStatus.RENTED, quantity := 4 }

/-- The rental produced by createRental 1 1 1 item5 0 518400000 50 10. -/
def createdRental : Rental :=
  { id := 1, customerId := 1, itemId := 1, userId := 1
    startDate := 0, endDate := 518400000, returnDate := none
    status := RentalStatus.PENDING, dailyRate := 15, numberOfDays := 6
    subtotal := 90, deposit := 50, discount := 10, totalAmount := 130
    amountPaid := 0, amountDue := 130, paymentStatus := PaymentStatus.UNPAID }

/-- createdRental after returnItem at time 999. -/
def returnedRental : Rental :=
  { createdRental with returnDate := some 999, status := RentalStatus.COMPLETED }

/-- r0 marked COMPLETED, for the terminal-state claims. -/
def completedRental : Rental :=
  { r0 with status := RentalStatus.COMPLETED, returnDate := some 600000000 }

/-- Epoch milliseconds of 2026-02-14T00:00:00Z. -/
def feb14 : Int := 1771027200000

/-- Epoch milliseconds of 2026-02-20T00:00:00Z. -/
def feb20 : Int := 1771545600000

/-- Item fixture for the date-computation example: dailyRate 15. -/
def exampleItem : Item :=
  { id := 2, status := ItemStatus.AVAILABLE, dailyRate := 15, quantity := 1 }

/-- Expected rental of createRental 2 3 4 exampleItem feb14 feb20 50 10. -/
def exampleRental : Rental :=
  { id := 2, customerId := 3, itemId := 2, userId := 4
    startDate := feb14, endDate := feb20, returnDate := none
    status := RentalStatus.PENDING, dailyRate := 15, numberOfDays := 6
    subtotal := 90, deposit := 50, discount := 10, totalAmount := 130
    amountPaid := 0, amountDue := 130, paymentStatus := PaymentStatus.UNPAID }

/-- exampleItem after the example createRental. -/
def exampleItemAfter : Item :=
  { exampleItem with status := ItemStatus.RENTED, quantity := 0 }

/-- Table fixture holding the ACTIVE rental r0 and item5. -/
def db0 : Db := { rentals := [r0], items := [item5] }

/-- db0 after cancelling r0 through updateRentalDb. -/
def db1 : Db := { rentals := [{ r0 with status := RentalStatus.CANCELLED }], items := [item5] }

/-- Payment fixture of amount 3. -/
def p3 : Payment := { id := 1, rentalId := 1, amount := 3, paymentDate := 0 }

/-- Expense fixture of amount 2. -/
def e2 : Expense := { id := 1, amount := 2, expenseDate := 0 }

/-- Characterization of the three-way classification for a positive paid
amount not exceeding the total. -/
theorem derivePaymentStatus_spec (p t : ℚ) (hpos : 0 < p) (hle : p ≤ t) :
    (derivePaymentStatus p t = PaymentStatus.PAID ↔ p = t) ∧
    (derivePaymentStatus p t = PaymentStatus.PARTIAL ↔ 0 < p ∧ p < t) ∧
    (derivePaymentStatus p t = PaymentStatus.UNPAID ↔ p = 0) := by
  by_cases h1 : t ≤ p
  · have hpt : p = t := le_antisymm hle h1
    have hd : derivePaymentStatus p t = PaymentStatus.PAID := by
      unfold derivePaymentStatus
      rw [if_pos h1]
    rw [hd]
    refine ⟨⟨fun _ => hpt, fun _ => rfl⟩, ?_, ?_⟩
    · constructor
      · intro hc; simp at hc
      · rintro ⟨-, hlt⟩; rw [hpt] at hlt; exact absurd hlt (lt_irrefl t)
    · constructor
      · intro hc; simp at hc
      · intro h0; rw [h0] at hpos; exact absurd hpos (lt_irrefl 0)
  · have hd : derivePaymentStatus p t = PaymentStatus.PARTIAL := by
      unfold derivePaymentStatus
      rw [if_neg h1, if_pos hpos]
    rw [hd]
    have hlt : p < t := not_le.mp h1
    refine ⟨?_, ⟨fun _ => ⟨hpos, hlt⟩, fun _ => rfl⟩, ?_⟩
    · constructor
      · intro hc; simp at hc
      · intro hpt; rw [hpt] at hlt; exact absurd hlt (lt_irrefl t)
    · constructor
      · intro hc; simp at hc
      · intro h0; rw [h0] at hpos; exact absurd hpos (lt_irrefl 0)

/-- One sweep pass leaves nothing for a second pass to change. -/
theorem sweepOne_idem (today : Int) (r : Rental) :
    sweepOne today (sweepOne today r) = sweepOne today r := by
  by_cases h1 : r.status = RentalStatus.ACTIVE ∧ r.endDate < today
  · unfold sweepOne
    rw [if_pos h1, if_neg (fun hc => RentalStatus.noConfusion hc.1)]
  · unfold sweepOne
    rw [if_neg h1, if_neg h1]

/-- Summing a filtered projection equals summing the projection guarded by
the filter predicate. -/
theorem sum_map_filter_eq {α : Type} (l : List α) (p : α → Bool) (f : α → ℚ) :
    ((l.filter p).map f).sum = (l.map (fun a => if p a then f a else 0)).sum := by
  induction l with
  | nil => rfl
  | cons a t ih =>
    by_cases h : p a
    · simp [List.filter_cons, h, ih]
    · simp [List.filter_cons, h, ih]

/-- C1 (evaluation of the code at the failing endpoint): for a staff caller,
GET /items/:id serializes nested rentals with all nine financial fields and
nested maintenance records with cost, while the rentals and maintenance
routers do redact those fields for staff and return them for admins. -/
theorem spec_c1_items_endpoint_leak :
    rentalFinancialFields.all
      (fun f => (itemByIdNestedRentalKeys Role.STAFF).contains f) = true ∧
    (itemByIdNestedMaintenanceKeys Role.STAFF).contains "cost" = true ∧
    (rentalsRouteRentalKeys Role.STAFF).contains "totalAmount" = false ∧
    rentalFinancialFields.all
      (fun f => (rentalsRouteRentalKeys Role.ADMIN).contains f) = true ∧
    (customerRentalKeys Role.STAFF).contains "amountDue" = false ∧
    (maintenanceRouteKeys Role.STAFF).contains "cost" = false ∧
    (maintenanceRouteKeys Role.ADMIN).contains "cost" = true ∧
    (rentalByIdKeys Role.STAFF).contains "paymentStatus" = false ∧
    rentalFinancialFields.all
      (fun f => (rentalByIdKeys Role.ADMIN).contains f) = true := by
  decide

/-- C2: after createRental, updateRental (with or without a date change),
recordPayment, or deletePayment, the rental satisfies
amountDue + amountPaid = totalAmount; the equation is exact in the rational
model, hence within any rounding tolerance. -/
theorem spec_c2_balance_invariant
    (rentalId customerId userId : Nat) (item : Item) (startDate endDate : Int)
    (deposit discount paymentAmount : ℚ) (rental : Rental)
    (newStartDate newEndDate : Option Int) (newStatus : Option RentalStatus) :
    (∀ rNew itemNew,
      createRental rentalId customerId userId item startDate endDate deposit discount
          = Except.ok (rNew, itemNew) → balanced rNew)
    ∧ (∀ rNew, balanced rental →
        updateRental rental newStartDate newEndDate newStatus = Except.ok rNew →
        balanced rNew)
    ∧ (∀ rNew, recordPayment rental paymentAmount = Except.ok rNew → balanced rNew)
    ∧ balanced (deletePayment rental paymentAmount) := by
  refine ⟨?_, ?_, ?_, ?_⟩
  · intro rNew itemNew h
    unfold createRental at h
    split at h
    · exact Except.noConfusion h
    split at h
    · exact Except.noConfusion h
    · simp only [Except.ok.injEq, Prod.mk.injEq] at h
      obtain ⟨h1, _⟩ := h
      subst h1
      simp [balanced]
  · intro rNew hinv h
    unfold updateRental at h
    split at h
    · dsimp only at h
      split at h
      · exact Except.noConfusion h
      · simp only [Except.ok.injEq] at h
        subst h
        simp only [balanced]
        ring
    · simp only [Except.ok.injEq] at h
      subst h
      simpa [balanced] using hinv
  · intro rNew h
    unfold recordPayment at h
    split at h
    · exact Except.noConfusion h
    split at h
    · exact Except.noConfusion h
    · simp only [Except.ok.injEq] at h
      subst h
      simp only [balanced]
      ring
  · simp only [balanced, deletePayment]
    ring

/-- C2 witness: the balance equation holds concretely after a create, a
date-changing update, a payment, and a payment deletion. -/
theorem spec_c2_balance_invariant_witness :
    createRental 1 1 1 item5 0 518400000 50 10 = Except.ok (createdRental, item4) ∧
    balanced createdRental ∧ balanced r0Extended ∧ balanced rp0 ∧
    balanced (deletePayment r0 30) := by
  have h := spec_c2_balance_invariant 1 1 1 item5 0 518400000 50 10 100 r0
    none (some 604800000) none
  have hCr : createRental 1 1 1 item5 0 518400000 50 10 =
      Except.ok (createdRental, item4) := by
    norm_num [createRental, computeNumberOfDays, msPerDay, item5, createdRental, item4]
  have hUp : updateRental r0 none (some 604800000) none = Except.ok r0Extended := by
    norm_num [updateRental, computeNumberOfDays, msPerDay, r0, r0Extended]
  have hPay : recordPayment r0 100 = Except.ok rp0 := by
    norm_num [recordPayment, derivePaymentStatus, r0, rp0]
  have h30 := spec_c2_balance_invariant 1 1 1 item5 0 518400000 50 10 30 r0
    none (some 604800000) none
  exact ⟨hCr, h.1 createdRental item4 hCr,
    h.2.1 r0Extended (by norm_num [balanced, r0]) hUp,
    h.2.2.1 rp0 hPay, h30.2.2.2⟩

/-- C3: on an AVAILABLE item with quantity q >= 1, createRental sets the item
to RENTED with quantity q-1 (unconditionally, however many units remain), and
returnItem on the resulting rental succeeds and restores quantity q and
status AVAILABLE. -/
theorem spec_c3_quantity_status (item : Item) (q : Int)
    (hstatus : item.status = ItemStatus.AVAILABLE) (hq : item.quantity = q)
    (hq1 : 1 ≤ q) (rentalId customerId userId : Nat) (startDate endDate : Int)
    (deposit discount : ℚ) (hdate : startDate < endDate) :
    ∀ rNew itemAfter,
      createRental rentalId customerId userId item startDate endDate deposit discount
          = Except.ok (rNew, itemAfter) →
      itemAfter.quantity = q - 1 ∧ itemAfter.status = ItemStatus.RENTED ∧
        rNew.status = RentalStatus.PENDING ∧
        ∀ now, returnItem rNew itemAfter now =
          Except.ok
            ({ rNew with returnDate := some now, status := RentalStatus.COMPLETED },
             { itemAfter with status := ItemStatus.AVAILABLE, quantity := q }) := by
  intro rNew itemAfter h
  unfold createRental at h
  rw [if_neg (not_le.mpr hdate)] at h
  have hcond : ¬(item.status ≠ ItemStatus.AVAILABLE ∨ item.quantity < 1) := by
    push_neg
    refine ⟨hstatus, ?_⟩
    rw [hq]
    exact hq1
  rw [if_neg hcond] at h
  simp only [Except.ok.injEq, Prod.mk.injEq] at h
  obtain ⟨h1, h2⟩ := h
  subst h1
  subst h2
  refine ⟨by rw [hq], rfl, rfl, ?_⟩
  intro now
  unfold returnItem
  rw [if_neg (fun hc => RentalStatus.noConfusion hc)]
  dsimp only
  have hqq : item.quantity - 1 + 1 = q := by rw [hq]; ring
  rw [hqq]

/-- C3 witness: item5 (AVAILABLE, quantity 5) goes to quantity 4 and RENTED
on createRental, then back to quantity 5 and AVAILABLE on returnItem. -/
theorem spec_c3_quantity_status_witness :
    item4.quantity = 4 ∧ item4.status = ItemStatus.RENTED ∧
    returnItem createdRental item4 999 = Except.ok (returnedRental, item5) ∧
    item5.quantity = 5 ∧ item5.status = ItemStatus.AVAILABLE := by
  have hCr : createRental 1 1 1 item5 0 518400000 50 10 =
      Except.ok (createdRental, item4) := by
    norm_num [createRental, computeNumberOfDays, msPerDay, item5, createdRental, item4]
  have h := spec_c3_quantity_status item5 5 rfl rfl (by norm_num) 1 1 1 0 518400000
    50 10 (by norm_num) createdRental item4 hCr
  refine ⟨h.1.trans (by norm_num), h.2.1, ?_, by norm_num [item5], rfl⟩
  have hr := h.2.2.2 999
  rw [hr]
  norm_num [createdRental, item4, returnedRental, item5]

/-- C4: recordPayment rejects an amount above amountDue with Conflict (and
produces no updated rental); on success it adds the amount to amountPaid,
recomputes amountDue, and classifies paymentStatus as PAID exactly at the
total, PARTIAL strictly between 0 and the total, UNPAID at 0. -/
theorem spec_c4_record_payment (rental : Rental) (paymentAmount : ℚ)
    (hpos : 0 < paymentAmount)
    (hinv : rental.amountDue + rental.amountPaid = rental.totalAmount)
    (hpaid : 0 ≤ rental.amountPaid) :
    (rental.amountDue < paymentAmount →
      recordPayment rental paymentAmount = Except.error ApiError.Conflict)
    ∧ (paymentAmount ≤ rental.amountDue →
        ∃ rNew, recordPayment rental paymentAmount = Except.ok rNew ∧
          rNew.amountPaid = rental.amountPaid + paymentAmount ∧
          rNew.amountDue = rental.totalAmount - rNew.amountPaid ∧
          (rNew.paymentStatus = PaymentStatus.PAID ↔
            rNew.amountPaid = rental.totalAmount) ∧
          (rNew.paymentStatus = PaymentStatus.PARTIAL ↔
            0 < rNew.amountPaid ∧ rNew.amountPaid < rental.totalAmount) ∧
          (rNew.paymentStatus = PaymentStatus.UNPAID ↔ rNew.amountPaid = 0)) := by
  constructor
  · intro hgt
    unfold recordPayment
    rw [if_neg (not_le.mpr hpos), if_pos hgt]
  · intro hle
    have hp : 0 < rental.amountPaid + paymentAmount := by linarith
    have hp2 : rental.amountPaid + paymentAmount ≤ rental.totalAmount := by linarith
    have hspec := derivePaymentStatus_spec (rental.amountPaid + paymentAmount)
      rental.totalAmount hp hp2
    refine ⟨{ rental with
        amountPaid := rental.amountPaid + paymentAmount
        amountDue := rental.totalAmount - (rental.amountPaid + paymentAmount)
        paymentStatus := derivePaymentStatus (rental.amountPaid + paymentAmount)
          rental.totalAmount }, ?_, rfl, rfl, ?_, ?_, ?_⟩
    · unfold recordPayment
      rw [if_neg (not_le.mpr hpos), if_neg (not_lt.mpr hle)]
    · exact hspec.1
    · exact hspec.2.1
    · exact hspec.2.2

/-- C4 witness: at r0 (amountDue 100), an attempted payment of 200 is a
Conflict, and a payment of 100 yields amountPaid 130, amountDue 0, PAID. -/
theorem spec_c4_record_payment_witness :
    recordPayment r0 200 = Except.error ApiError.Conflict ∧
    recordPayment r0 100 = Except.ok rp0 ∧
    rp0.amountPaid = 130 ∧ rp0.amountDue = 0 ∧
    rp0.paymentStatus = PaymentStatus.PAID := by
  have hConflict := (spec_c4_record_payment r0 200 (by norm_num)
    (by norm_num [r0]) (by norm_num [r0])).1 (by norm_num [r0])
  have _hOk := (spec_c4_record_payment r0 100 (by norm_num)
    (by norm_num [r0]) (by norm_num [r0])).2 (by norm_num [r0])
  refine ⟨hConflict, ?_, by norm_num [rp0, r0], by norm_num [rp0, r0], ?_⟩
  · norm_num [recordPayment, derivePaymentStatus, r0, rp0]
  · norm_num [rp0, r0]

/-- C5 counterexample: rStale is reachable (a date edit of the fully paid rp0)
and has amountDue 15 with stored paymentStatus PAID; paying 15 and deleting
that payment re-derives PARTIAL (130 < 145), so the round trip does not
restore the pre-payment paymentStatus on this rental. -/
theorem spec_c5_counterexample :
    updateRental rp0 none (some 604800000) none = Except.ok rStale ∧
    rStale.paymentStatus = PaymentStatus.PAID ∧
    (0:ℚ) < 15 ∧ (15:ℚ) ≤ rStale.amountDue ∧
    recordPayment rStale 15 = Except.ok rRepaid ∧
    (deletePayment rRepaid 15).amountPaid = rStale.amountPaid ∧
    (deletePayment rRepaid 15).amountDue = rStale.amountDue ∧
    (deletePayment rRepaid 15).paymentStatus = PaymentStatus.PARTIAL ∧
    (deletePayment rRepaid 15).paymentStatus ≠ rStale.paymentStatus := by
  refine ⟨?_, by norm_num [rStale, rp0, r0], by norm_num,
    by norm_num [rStale, rp0, r0], ?_, ?_, ?_, ?_, ?_⟩
  · norm_num [updateRental, computeNumberOfDays, msPerDay, rStale, rp0, r0]
  · norm_num [recordPayment, derivePaymentStatus, rStale, rRepaid, rp0, r0]
  · norm_num [deletePayment, rRepaid, rStale, rp0, r0]
  · norm_num [deletePayment, rRepaid, rStale, rp0, r0]
  · norm_num [deletePayment, derivePaymentStatus, rRepaid, rStale, rp0, r0]
  · norm_num [deletePayment, derivePaymentStatus, rRepaid, rStale, rp0, r0]
    decide

/-- C5 amended: for every rental satisfying the balance equation, recording
a positive payment within amountDue and then deleting it restores amountPaid
and amountDue exactly; the final paymentStatus is re-derived by the three-way
classification of the restored amountPaid against totalAmount (never read
from a cache), so it equals the pre-payment status exactly when the stored
status agreed with that classification (date edits can leave a stale status,
as the counterexample shows). -/
theorem spec_c5_payment_roundtrip (rental : Rental) (paymentAmount : ℚ)
    (hpos : 0 < paymentAmount) (hle : paymentAmount ≤ rental.amountDue)
    (hinv : rental.amountDue + rental.amountPaid = rental.totalAmount) :
    ∀ rNew, recordPayment rental paymentAmount = Except.ok rNew →
      (deletePayment rNew paymentAmount).amountPaid = rental.amountPaid ∧
      (deletePayment rNew paymentAmount).amountDue = rental.amountDue ∧
      (deletePayment rNew paymentAmount).paymentStatus =
        derivePaymentStatus rental.amountPaid rental.totalAmount ∧
      (rental.paymentStatus =
          derivePaymentStatus rental.amountPaid rental.totalAmount →
        (deletePayment rNew paymentAmount).paymentStatus =
          rental.paymentStatus) := by
  intro rNew h
  unfold recordPayment at h
  rw [if_neg (not_le.mpr hpos), if_neg (not_lt.mpr hle)] at h
  simp only [Except.ok.injEq] at h
  subst h
  unfold deletePayment
  dsimp only
  have hpp : rental.amountPaid + paymentAmount - paymentAmount =
      rental.amountPaid := by ring
  rw [hpp]
  exact ⟨rfl, by linarith, rfl, fun hclass => hclass.symm⟩

/-- C5 witness: at r0 (amountPaid 30, amountDue 100, PARTIAL, a state whose
status agrees with the classification), paying 100 and then deleting that
payment restores amountPaid 30, amountDue 100, PARTIAL. -/
theorem spec_c5_payment_roundtrip_witness :
    (deletePayment rp0 100).amountPaid = 30 ∧
    (deletePayment rp0 100).amountDue = 100 ∧
    (deletePayment rp0 100).paymentStatus = PaymentStatus.PARTIAL := by
  have h := spec_c5_payment_roundtrip r0 100 (by norm_num) (by norm_num [r0])
    (by norm_num [r0])
  have hEq : recordPayment r0 100 = Except.ok rp0 := by
    norm_num [recordPayment, derivePaymentStatus, r0, rp0]
  obtain ⟨h1, h2, -, h4⟩ := h rp0 hEq
  refine ⟨h1.trans (by norm_num [r0]), h2.trans (by norm_num [r0]),
    (h4 (by norm_num [r0, derivePaymentStatus])).trans (by norm_num [r0])⟩

/-- C6 counterexample: updateRental on a COMPLETED rental with status ACTIVE
succeeds and changes the status away from COMPLETED, so COMPLETED is not
terminal under updateRental. -/
theorem spec_c6_counterexample :
    completedRental.status = RentalStatus.COMPLETED ∧
    updateRental completedRental none none (some RentalStatus.ACTIVE) =
      Except.ok { completedRental with status := RentalStatus.ACTIVE } ∧
    ({ completedRental with status := RentalStatus.ACTIVE } : Rental).status ≠
      RentalStatus.COMPLETED := by
  refine ⟨rfl, ?_, by simp⟩
  unfold updateRental
  simp

/-- C6 amended: returnItem does fail with Conflict on an already-COMPLETED
rental, but updateRental writes any supplied status unconditionally, so a
COMPLETED rental can be moved to any status through updateRental. -/
theorem spec_c6_amended (rental : Rental) (item : Item) (now : Int)
    (s : RentalStatus) :
    (rental.status = RentalStatus.COMPLETED →
      returnItem rental item now = Except.error ApiError.Conflict) ∧
    updateRental rental none none (some s) = Except.ok { rental with status := s } := by
  constructor
  · intro hc
    unfold returnItem
    rw [if_pos hc]
  · unfold updateRental
    simp

/-- C6 witness: on completedRental, returnItem is a Conflict while
updateRental rewrites the status to ACTIVE. -/
theorem spec_c6_amended_witness :
    returnItem completedRental item5 700000000 = Except.error ApiError.Conflict ∧
    updateRental completedRental none none (some RentalStatus.ACTIVE) =
      Except.ok { completedRental with status := RentalStatus.ACTIVE } := by
  have h := spec_c6_amended completedRental item5 700000000 RentalStatus.ACTIVE
  exact ⟨h.1 rfl, h.2⟩

/-- C7: a successful createRental snapshot satisfies
numberOfDays = ceil((endDate-startDate)/1 day), subtotal = dailyRate x days
with dailyRate copied from the item, totalAmount = subtotal + deposit -
discount, amountPaid = 0, amountDue = totalAmount, paymentStatus UNPAID. -/
theorem spec_c7_financial_snapshot (item : Item) (rentalId customerId userId : Nat)
    (startDate endDate : Int) (deposit discount : ℚ) :
    ∀ rNew itemAfter,
      createRental rentalId customerId userId item startDate endDate deposit discount
          = Except.ok (rNew, itemAfter) →
      rNew.numberOfDays =
        Int.ceil (((endDate - startDate : Int) : ℚ) / (86400000 : ℚ)) ∧
      rNew.dailyRate = item.dailyRate ∧
      rNew.subtotal = item.dailyRate * (rNew.numberOfDays : ℚ) ∧
      rNew.totalAmount = rNew.subtotal + deposit - discount ∧
      rNew.amountPaid = 0 ∧
      rNew.amountDue = rNew.totalAmount ∧
      rNew.paymentStatus = PaymentStatus.UNPAID := by
  intro rNew itemAfter h
  unfold createRental at h
  split at h
  · exact Except.noConfusion h
  split at h
  · exact Except.noConfusion h
  simp only [Except.ok.injEq, Prod.mk.injEq] at h
  obtain ⟨h1, -⟩ := h
  subst h1
  refine ⟨?_, rfl, rfl, rfl, rfl, rfl, rfl⟩
  show computeNumberOfDays startDate endDate = _
  unfold computeNumberOfDays msPerDay
  norm_num

/-- C7 witness: the example from the contract, dailyRate 15, 2026-02-14 to
2026-02-20, deposit 50, discount 10, gives days 6, subtotal 90,
totalAmount 130, amountDue 130. -/
theorem spec_c7_financial_snapshot_witness :
    createRental 2 3 4 exampleItem feb14 feb20 50 10 =
      Except.ok (exampleRental, exampleItemAfter) ∧
    exampleRental.numberOfDays = 6 ∧ exampleRental.subtotal = 90 ∧
    exampleRental.totalAmount = 130 ∧ exampleRental.amountDue = 130 := by
  have hCr : createRental 2 3 4 exampleItem feb14 feb20 50 10 =
      Except.ok (exampleRental, exampleItemAfter) := by
    norm_num [createRental, computeNumberOfDays, msPerDay, exampleItem,
      exampleRental, exampleItemAfter, feb14, feb20]
  have h := spec_c7_financial_snapshot exampleItem 2 3 4 feb14 feb20 50 10
    exampleRental exampleItemAfter hCr
  exact ⟨hCr, h.1.trans (by norm_num [feb14, feb20]),
    by norm_num [exampleRental], by norm_num [exampleRental],
    by norm_num [exampleRental]⟩

/-- C8: the overdue sweep marks exactly the ACTIVE rentals with
endDate < today as OVERDUE, touches nothing else, and is idempotent: a second
run with the same clock changes no rental and the endpoint returns the same
OVERDUE listing. -/
theorem spec_c8_sweep_idempotent (today : Int) (rentals : List Rental) :
    (∀ r : Rental,
      ((sweepOne today r).status = RentalStatus.OVERDUE ↔
        (r.status = RentalStatus.OVERDUE ∨
          (r.status = RentalStatus.ACTIVE ∧ r.endDate < today)))
      ∧ (¬(r.status = RentalStatus.ACTIVE ∧ r.endDate < today) →
          sweepOne today r = r)
      ∧ ((r.status = RentalStatus.ACTIVE ∧ r.endDate < today) →
          sweepOne today r = { r with status := RentalStatus.OVERDUE }))
    ∧ sweepOverdue today (sweepOverdue today rentals) = sweepOverdue today rentals
    ∧ getOverdueRentals today (sweepOverdue today rentals) =
        (sweepOverdue today rentals, (getOverdueRentals today rentals).2) := by
  have hidem : sweepOverdue today (sweepOverdue today rentals) =
      sweepOverdue today rentals := by
    unfold sweepOverdue
    rw [List.map_map]
    exact List.map_congr_left (fun r _ => sweepOne_idem today r)
  refine ⟨?_, hidem, ?_⟩
  · intro r
    refine ⟨?_, ?_, ?_⟩
    · by_cases h1 : r.status = RentalStatus.ACTIVE ∧ r.endDate < today
      · unfold sweepOne
        rw [if_pos h1]
        simp only [true_iff]
        exact Or.inr h1
      · unfold sweepOne
        rw [if_neg h1]
        constructor
        · exact fun h => Or.inl h
        · intro h
          rcases h with h | h
          · exact h
          · exact absurd h h1
    · intro h1
      unfold sweepOne
      rw [if_neg h1]
    · intro h1
      unfold sweepOne
      rw [if_pos h1]
  · unfold getOverdueRentals
    rw [hidem]

/-- C8 witness: with the clock at 600000000, the ACTIVE-and-late r0 is swept
to OVERDUE, the COMPLETED rental is untouched, and re-sweeping the swept
table changes nothing. -/
theorem spec_c8_sweep_idempotent_witness :
    sweepOverdue 600000000 (sweepOverdue 600000000 [r0, completedRental]) =
      sweepOverdue 600000000 [r0, completedRental] ∧
    (sweepOne 600000000 r0).status = RentalStatus.OVERDUE ∧
    sweepOne 600000000 completedRental = completedRental := by
  have h := spec_c8_sweep_idempotent 600000000 [r0, completedRental]
  refine ⟨h.2.1, ?_, ?_⟩
  · exact ((h.1 r0).1).mpr (Or.inr ⟨rfl, by norm_num [r0]⟩)
  · exact (h.1 completedRental).2.1 (by simp [completedRental, r0])

/-- C9 counterexample: with one payment of 3 and one expense of 2 the handler
returns profitMargin 33.33 (toFixed(2) rounding), which differs from
netProfit/totalRevenue*100 = 100/3, so the claimed exact-quotient equation
fails on the code. -/
theorem spec_c9_counterexample :
    (getSummary [p3] [e2] [] none none).totalRevenue = 3 ∧
    (getSummary [p3] [e2] [] none none).netProfit = 1 ∧
    (getSummary [p3] [e2] [] none none).profitMargin = 3333 / 100 ∧
    (getSummary [p3] [e2] [] none none).profitMargin ≠
      (getSummary [p3] [e2] [] none none).netProfit /
        (getSummary [p3] [e2] [] none none).totalRevenue * 100 := by
  norm_num [getSummary, inDateRange, toFixed2, p3, e2]

/-- C9 amended: the summary returns the in-range payment and expense sums and
netProfit as their difference; outstandingPayments sums amountDue over
UNPAID/PARTIAL rentals and ignores the requested period; profitMargin is
netProfit/totalRevenue*100 rounded to two decimals when totalRevenue > 0 and
0 when totalRevenue = 0. -/
theorem spec_c9_summary (payments : List Payment) (expenses : List Expense)
    (rentals : List Rental) (startDate endDate : Option Int) :
    (getSummary payments expenses rentals startDate endDate).totalRevenue =
      (payments.map (fun p =>
        if inDateRange p.paymentDate startDate endDate then p.amount else 0)).sum ∧
    (getSummary payments expenses rentals startDate endDate).totalExpenses =
      (expenses.map (fun e =>
        if inDateRange e.expenseDate startDate endDate then e.amount else 0)).sum ∧
    (getSummary payments expenses rentals startDate endDate).netProfit =
      (getSummary payments expenses rentals startDate endDate).totalRevenue -
        (getSummary payments expenses rentals startDate endDate).totalExpenses ∧
    (getSummary payments expenses rentals startDate endDate).outstandingPayments =
      (getSummary payments expenses rentals none none).outstandingPayments ∧
    (getSummary payments expenses rentals startDate endDate).outstandingPayments =
      (rentals.map (fun r =>
        if r.paymentStatus = PaymentStatus.UNPAID ∨
            r.paymentStatus = PaymentStatus.PARTIAL
        then r.amountDue else 0)).sum ∧
    ((getSummary payments expenses rentals startDate endDate).totalRevenue = 0 →
      (getSummary payments expenses rentals startDate endDate).profitMargin = 0) ∧
    (0 < (getSummary payments expenses rentals startDate endDate).totalRevenue →
      (getSummary payments expenses rentals startDate endDate).profitMargin =
        toFixed2 ((getSummary payments expenses rentals startDate endDate).netProfit /
          (getSummary payments expenses rentals startDate endDate).totalRevenue * 100)) := by
  refine ⟨?_, ?_, ?_, ?_, ?_, ?_, ?_⟩
  · simp only [getSummary]
    exact sum_map_filter_eq payments _ Payment.amount
  · simp only [getSummary]
    exact sum_map_filter_eq expenses _ Expense.amount
  · rfl
  · rfl
  · simp only [getSummary]
    rw [sum_map_filter_eq]
    simp only [decide_eq_true_eq]
  · intro h0
    simp only [getSummary] at h0 ⊢
    rw [if_neg (by rw [h0]; exact lt_irrefl 0)]
  · intro hpos
    simp only [getSummary] at hpos ⊢
    rw [if_pos hpos]

/-- C9 witness: one in-range payment of 3, one in-range expense of 2, one
PARTIAL rental owing 100: revenue 3, expenses 2, netProfit 1,
outstandingPayments 100, profitMargin 33.33. -/
theorem spec_c9_summary_witness :
    (getSummary [p3] [e2] [r0] (some 0) (some 10)).totalRevenue = 3 ∧
    (getSummary [p3] [e2] [r0] (some 0) (some 10)).totalExpenses = 2 ∧
    (getSummary [p3] [e2] [r0] (some 0) (some 10)).netProfit = 1 ∧
    (getSummary [p3] [e2] [r0] (some 0) (some 10)).outstandingPayments = 100 ∧
    (getSummary [p3] [e2] [r0] (some 0) (some 10)).profitMargin = 3333 / 100 := by
  have h := spec_c9_summary [p3] [e2] [r0] (some 0) (some 10)
  have _hMargin := h.2.2.2.2.2.2
    (by norm_num [getSummary, inDateRange, p3, e2, r0])
  refine ⟨?_, ?_, ?_, ?_, ?_⟩ <;>
    norm_num [getSummary, inDateRange, toFixed2, p3, e2, r0]

/-- C10: a successful updateRentalDb leaves the item table exactly as it was,
whatever dates or status (including CANCELLED) the update carries. -/
theorem spec_c10_update_rental_frame (db : Db) (rentalId : Nat)
    (newStartDate newEndDate : Option Int) (newStatus : Option RentalStatus) :
    ∀ dbNew, updateRentalDb db rentalId newStartDate newEndDate newStatus =
        Except.ok dbNew → dbNew.items = db.items := by
  intro dbNew h
  unfold updateRentalDb at h
  cases hf : findRental db.rentals rentalId with
  | none =>
    rw [hf] at h
    exact Except.noConfusion h
  | some rental =>
    rw [hf] at h
    dsimp only at h
    cases hu : updateRental rental newStartDate newEndDate newStatus with
    | error e =>
      rw [hu] at h
      exact Except.noConfusion h
    | ok updated =>
      rw [hu] at h
      simp only [Except.ok.injEq] at h
      subst h
      rfl

/-- C10 witness: cancelling the ACTIVE rental r0 via a status update succeeds
and leaves the item table untouched. -/
theorem spec_c10_update_rental_frame_witness :
    updateRentalDb db0 1 none none (some RentalStatus.CANCELLED) = Except.ok db1 ∧
    db1.items = db0.items ∧ r0.status = RentalStatus.ACTIVE := by
  have hEq : updateRentalDb db0 1 none none (some RentalStatus.CANCELLED) =
      Except.ok db1 := by
    norm_num [updateRentalDb, findRental, updateRental, db0, db1, r0]
  exact ⟨hEq, spec_c10_update_rental_frame db0 1 none none
    (some RentalStatus.CANCELLED) db1 hEq, rfl⟩

end RentalSystem
